import Mathlib

/-!
Verification of the motion-command pipeline in src/bin/stepper/fixed_dist.rs.

The Rust binary is a single straight-line pipeline: parse two required pin
arguments and two optional motion arguments from the command line, read three
optional environment variables (INERTIA, FORCE, MICRO), open the GPIO
subsystem, acquire the two pins, build a stepper actuator, configure it
(12 V supply, no overload-current ceiling), run one-time setup, optionally set
microstepping, apply inertia and generalized force, set the velocity ceiling,
and issue one relative drive at the maximum speed factor.

Shallow embedding: the pipeline is a pure function from the already-parsed
command line, the environment map, and a record of collaborator behaviour
(which fallible external calls succeed) to the ordered trace of collaborator
calls together with the process outcome.  Numeric f32 values are modelled as
exact rationals; string parsing of the numeric environment variables is
modelled at the collaborator boundary by the decimal fragment of Rust numeric
parsing (optional sign, digits, optional fractional part; the empty string and
non-numeric strings fail), and MICRO by unsigned 8-bit integer parsing.
-/

namespace Syrasp

/-- The f32 value of the constant PI used by the source (nearest binary32 to
the real number pi, namely 13176795 / 2^22). -/
def pi32 : ℚ := 13176795 / 4194304

/-- DELTA_DEF, line 9 of the source: Delta(2.0 * PI).  Doubling is exact in
binary32, so the default distance is exactly twice the f32 value of PI. -/
def DELTA_DEF : ℚ := 2 * pi32

/-- OMEGA_DEF, line 10 of the source: Velocity(20.0). -/
def OMEGA_DEF : ℚ := 20

/-- Factor::MAX of the actuator library: the full relative-speed factor 1.0,
passed to drive_rel on line 75. -/
def factorMAX : ℚ := 1

/-- Accumulate a list of decimal digit characters into a natural number. -/
def digitsVal (l : List Char) : ℕ :=
  l.foldl (fun acc c => 10 * acc + (c.toNat - 48)) 0

/-- Parse an unsigned decimal literal (digits, optional dot, digits; at least
one digit overall) into an exact rational. -/
def parseUnsigned (l : List Char) : Option ℚ :=
  let intPart := l.takeWhile Char.isDigit
  let rest := l.dropWhile Char.isDigit
  match rest with
  | [] => if intPart.isEmpty then none else some ((digitsVal intPart : ℚ))
  | '.' :: frac =>
      if frac.all Char.isDigit && !(intPart.isEmpty && frac.isEmpty) then
        some ((digitsVal intPart : ℚ) + (digitsVal frac : ℚ) / ((10 : ℚ) ^ frac.length))
      else none
  | _ => none

/-- Collaborator-boundary model of Rust numeric FromStr as used for the
Inertia and Force environment values (lines 37 and 38): an optional sign
followed by an unsigned decimal literal.  The empty string and any
non-numeric string fail to parse. -/
def parseDecimal (s : String) : Option ℚ :=
  match s.toList with
  | [] => none
  | '-' :: r => (parseUnsigned r).map Neg.neg
  | '+' :: r => parseUnsigned r
  | l => parseUnsigned l

/-- Digits of an unsigned 8-bit integer: at least one digit, all decimal,
value below 256. -/
def parseMicroDigits (l : List Char) : Option ℕ :=
  if l.isEmpty then none
  else if l.all Char.isDigit then
    if digitsVal l < 256 then some (digitsVal l) else none
  else none

/-- Collaborator-boundary model of parsing the MICRO environment value
(line 39): unsigned 8-bit integer parsing with an optional plus sign. -/
def parseMicro (s : String) : Option ℕ :=
  match s.toList with
  | [] => none
  | '+' :: r => parseMicroDigits r
  | l => parseMicroDigits l

/-- The command line after clap parsing: the two positional pin arguments and
the two optional motion arguments (lines 30 to 34).  A field is none when the
argument was absent from the command line. -/
structure Args where
  pin_step : Option ℕ
  pin_dir : Option ℕ
  delta : Option ℚ
  omega : Option ℚ
deriving DecidableEq

/-- The three environment variables read on lines 37 to 39.  A field is none
when the variable is unset; an empty string is a present, empty value. -/
structure Env where
  inertia : Option String
  force : Option String
  micro : Option String
deriving DecidableEq

/-- One observable collaborator call of the pipeline, in source order:
GPIO subsystem open (line 43), pin acquisition (lines 49 and 50), signal
generator construction (line 48), actuator construction (line 47),
electrical configuration (line 56), one-time setup (line 60), microstep
application (line 63), load application (lines 67 and 68), velocity ceiling
(line 70) and the single relative drive (line 75). -/
inductive Event where
  | gpioNew : Event
  | gpioGet (pin : ℕ) : Event
  | pwmNew : Event
  | stepperNew : Event
  | setConfig (voltage : ℚ) (overloadCurrent : Option ℚ) : Event
  | setup : Event
  | setMicrosteps (micro : ℕ) : Event
  | applyInertia (inertia : ℚ) : Event
  | applyGenForce (force : ℚ) : Event
  | setVelocityMax (omega : ℚ) : Event
  | driveRel (delta : ℚ) (speedFactor : ℚ) : Event
deriving DecidableEq

/-- How the process ends: success (Ok(()) from main), a panic from expect or
unwrap, or an error propagated with the question-mark operator. -/
inductive Outcome where
  | success : Outcome
  | panicked : Outcome
  | errored : Outcome
deriving DecidableEq

/-- Process exit code for each outcome: 0 for success, 1 for a propagated
error from main, 101 for a Rust panic. -/
def exitCode : Outcome → ℕ
  | Outcome.success => 0
  | Outcome.errored => 1
  | Outcome.panicked => 101

/-- Behaviour of the fallible external collaborator calls: whether the GPIO
subsystem opens, whether each pin is acquirable, whether signal-generator and
actuator construction succeed, whether setup succeeds, whether the actuator
accepts a given generalized force, and whether a relative drive of a given
distance completes. -/
structure World where
  gpioNew : Bool
  gpioGet : ℕ → Bool
  pwmNew : Bool
  stepperNew : Bool
  setup : Bool
  applyGenForce : ℚ → Bool
  driveRel : ℚ → Bool

/-- Resolution of one numeric environment variable (lines 37 and 38): unset
means the zero default, a present value must parse or the process panics
(modelled as none). -/
def loadOrDefault (v : Option String) (d : ℚ) : Option ℚ :=
  match v with
  | none => some d
  | some s => parseDecimal s

/-- Resolution of the MICRO environment variable (line 39): unset means no
microstep override, a present value must parse or the process panics
(modelled as none). -/
def loadMicro (v : Option String) : Option (Option ℕ) :=
  match v with
  | none => some none
  | some s => (parseMicro s).map some

/-- Resolution of all three environment variables in source order; none means
one of the unwrap calls on lines 37 to 39 panicked. -/
def envLoads (e : Env) : Option (ℚ × ℚ × Option ℕ) :=
  (loadOrDefault e.inertia 0).bind fun i =>
    (loadOrDefault e.force 0).bind fun f =>
      (loadMicro e.micro).map fun mo => (i, f, mo)

/-- The microstep call of lines 62 to 64: present exactly when the MICRO
override is. -/
def microEvents : Option ℕ → List Event
  | some m => [Event.setMicrosteps m]
  | none => []

/-- The calls issued up to and including apply_gen_force (line 68). -/
def preTrace (ps pd : ℕ) (inertia force : ℚ) (mo : Option ℕ) : List Event :=
  [Event.gpioNew, Event.gpioGet ps, Event.gpioGet pd, Event.pwmNew,
    Event.stepperNew, Event.setConfig 12 none, Event.setup]
  ++ microEvents mo
  ++ [Event.applyInertia inertia, Event.applyGenForce force]

/-- The calls issued by a run that reaches the relative drive (line 75). -/
def fullTrace (ps pd : ℕ) (delta omega inertia force : ℚ) (mo : Option ℕ) : List Event :=
  preTrace ps pd inertia force mo
  ++ [Event.setVelocityMax omega, Event.driveRel delta factorMAX]

/-- The hardware part of the pipeline, lines 43 to 78 of the source: open
GPIO (unwrap), acquire the step then the direction pin (unwrap each), build
the signal generator (question mark) and the actuator (unwrap), set the fixed
electrical configuration, run setup (question mark), optionally apply
microstepping, apply inertia, apply generalized force (question mark), set
the velocity ceiling, and drive relatively by delta at Factor::MAX
(question mark). -/
def runHw (ps pd : ℕ) (delta omega inertia force : ℚ) (mo : Option ℕ)
    (w : World) : List Event × Outcome :=
  if w.gpioNew then
    if w.gpioGet ps then
      if w.gpioGet pd then
        if w.pwmNew then
          if w.stepperNew then
            if w.setup then
              if w.applyGenForce force then
                if w.driveRel delta then
                  (fullTrace ps pd delta omega inertia force mo, Outcome.success)
                else
                  (fullTrace ps pd delta omega inertia force mo, Outcome.errored)
              else (preTrace ps pd inertia force mo, Outcome.errored)
            else
              ([Event.gpioNew, Event.gpioGet ps, Event.gpioGet pd, Event.pwmNew,
                Event.stepperNew, Event.setConfig 12 none, Event.setup], Outcome.errored)
          else
            ([Event.gpioNew, Event.gpioGet ps, Event.gpioGet pd, Event.pwmNew,
              Event.stepperNew], Outcome.panicked)
        else
          ([Event.gpioNew, Event.gpioGet ps, Event.gpioGet pd, Event.pwmNew],
            Outcome.errored)
      else ([Event.gpioNew, Event.gpioGet ps, Event.gpioGet pd], Outcome.panicked)
    else ([Event.gpioNew, Event.gpioGet ps], Outcome.panicked)
  else ([Event.gpioNew], Outcome.panicked)

/-- The whole pipeline, fn main of the source: the two expect calls on the
pin arguments (lines 30 and 31), the default resolution of delta and omega
(lines 33 and 34), the environment loads (lines 37 to 39), then the hardware
part.  A missing pin argument or a malformed environment value aborts before
any collaborator call, so those runs produce an empty trace. -/
def main (a : Args) (e : Env) (w : World) : List Event × Outcome :=
  match a.pin_step with
  | none => ([], Outcome.panicked)
  | some ps =>
    match a.pin_dir with
    | none => ([], Outcome.panicked)
    | some pd =>
      let delta := a.delta.getD DELTA_DEF
      let omega := a.omega.getD OMEGA_DEF
      match envLoads e with
      | none => ([], Outcome.panicked)
      | some (inertia, force, mo) => runHw ps pd delta omega inertia force mo w

/-- Recognizer for microstep-application events. -/
def isMicro : Event → Bool
  | Event.setMicrosteps _ => true
  | _ => false

/-- Recognizer for velocity-ceiling events. -/
def isVelMax : Event → Bool
  | Event.setVelocityMax _ => true
  | _ => false

/-- Recognizer for inertia-application events. -/
def isInertia : Event → Bool
  | Event.applyInertia _ => true
  | _ => false

/-- Recognizer for generalized-force-application events. -/
def isForce : Event → Bool
  | Event.applyGenForce _ => true
  | _ => false

/-- Recognizer for load-application events: inertia or generalized force. -/
def isLoad (ev : Event) : Bool := isInertia ev || isForce ev

/-- ordered p q t holds when every event selected by p occurs strictly before
every event selected by q in the trace t: wherever a q event stands, no p
event follows it. -/
def ordered (p q : Event → Bool) : List Event → Bool
  | [] => true
  | ev :: t => (if q ev then t.all fun x => !(p x) else true) && ordered p q t

/-- Replace the displacement argument of relative-drive events by zero,
keeping every other call and every other argument intact.  Two traces with
equal images under this map agree on everything except the displacement
passed to drive_rel. -/
def maskDelta : Event → Event
  | Event.driveRel _ fac => Event.driveRel 0 fac
  | ev => ev

/-- The same command line with the delta argument replaced. -/
def setDelta (a : Args) (d : ℚ) : Args :=
  ⟨a.pin_step, a.pin_dir, some d, a.omega⟩

/-- All fallible collaborator calls succeed. -/
def hwOk (w : World) : Prop :=
  w.gpioNew = true ∧ (∀ p, w.gpioGet p = true) ∧ w.pwmNew = true ∧
    w.stepperNew = true ∧ w.setup = true ∧
    (∀ f, w.applyGenForce f = true) ∧ (∀ d, w.driveRel d = true)

/-- A command line providing only the two pin arguments 17 and 27. -/
def argsPins : Args := ⟨some 17, some 27, none, none⟩

/-- An environment with all three variables unset. -/
def envUnset : Env := ⟨none, none, none⟩

/-- An environment whose INERTIA variable is set to the empty string. -/
def envEmptyInertia : Env := ⟨some "", none, none⟩

/-- An environment whose MICRO variable is set to the string 4. -/
def envMicro4 : Env := ⟨none, none, some "4"⟩

/-- An environment whose FORCE variable is set to the empty string. -/
def envEmptyForce : Env := ⟨none, some "", none⟩

/-- An environment whose MICRO variable is set to a non-numeric string. -/
def envBadMicro : Env := ⟨none, none, some "x"⟩

/-- A command line providing pin 17 but no direction pin. -/
def argsNoDir : Args := ⟨some 17, none, none, none⟩

/-- A command line with pins 17 and 27, a negative delta of -5 rad and a zero
omega. -/
def argsNeg : Args := ⟨some 17, some 27, some (-5), some 0⟩

/-- A collaborator behaviour in which every fallible call succeeds. -/
def worldOk : World :=
  ⟨true, fun _ => true, true, true, true, fun _ => true, fun _ => true⟩

/-- A collaborator behaviour in which the actuator rejects every generalized
force and everything else succeeds. -/
def worldForceFail : World :=
  ⟨true, fun _ => true, true, true, true, fun _ => false, fun _ => true⟩

/-- A malformed INERTIA value makes the environment load fail. -/
theorem envLoads_inertia_bad (e : Env) (s : String)
    (hs : e.inertia = some s) (hp : parseDecimal s = none) :
    envLoads e = none := by
  simp [envLoads, loadOrDefault, hs, hp]

/-- A malformed FORCE value makes the environment load fail. -/
theorem envLoads_force_bad (e : Env) (s : String)
    (hs : e.force = some s) (hp : parseDecimal s = none) :
    envLoads e = none := by
  cases h1 : loadOrDefault e.inertia 0 <;>
    simp [envLoads, h1, loadOrDefault, hs, hp]

/-- A malformed MICRO value makes the environment load fail. -/
theorem envLoads_micro_bad (e : Env) (s : String)
    (hs : e.micro = some s) (hp : parseMicro s = none) :
    envLoads e = none := by
  cases h1 : loadOrDefault e.inertia 0 <;>
    cases h2 : loadOrDefault e.force 0 <;>
      simp [envLoads, h1, h2, loadMicro, hs, hp]

/-- A successful environment load with MICRO present and well-formed carries
exactly the parsed microstep override. -/
theorem envLoads_micro_eq (e : Env) (i f : ℚ) (mo : Option ℕ) (s : String) (m : ℕ)
    (h : envLoads e = some (i, f, mo)) (hs : e.micro = some s)
    (hp : parseMicro s = some m) : mo = some m := by
  cases h1 : loadOrDefault e.inertia 0 <;>
    cases h2 : loadOrDefault e.force 0 <;>
      simp [envLoads, h1, h2, loadMicro, hs, hp] at h
  exact h.2.2.symm

/-- Every run either aborts before any collaborator call, with a panic and an
empty trace, or consists of the hardware pipeline on pins and loads resolved
from the inputs. -/
theorem main_cases (a : Args) (e : Env) (w : World) :
    main a e w = ([], Outcome.panicked)
    ∨ ∃ ps pd i f mo, a.pin_step = some ps ∧ a.pin_dir = some pd ∧
        envLoads e = some (i, f, mo) ∧
        main a e w =
          runHw ps pd (a.delta.getD DELTA_DEF) (a.omega.getD OMEGA_DEF) i f mo w := by
  cases hps : a.pin_step with
  | none => exact Or.inl (by simp [main, hps])
  | some ps =>
    cases hpd : a.pin_dir with
    | none => exact Or.inl (by simp [main, hps, hpd])
    | some pd =>
      cases hE : envLoads e with
      | none => exact Or.inl (by simp [main, hps, hpd, hE])
      | some x =>
        obtain ⟨i, f, mo⟩ := x
        exact Or.inr ⟨ps, pd, i, f, mo, rfl, rfl, rfl, by simp [main, hps, hpd, hE]⟩

/-- A run whose inputs parse and whose collaborator calls all succeed issues
the full trace and succeeds. -/
theorem main_ok (a : Args) (e : Env) (w : World) (ps pd : ℕ) (i f : ℚ)
    (mo : Option ℕ) (hps : a.pin_step = some ps) (hpd : a.pin_dir = some pd)
    (hi : loadOrDefault e.inertia 0 = some i) (hf : loadOrDefault e.force 0 = some f)
    (hm : loadMicro e.micro = some mo) (hw : hwOk w) :
    main a e w =
      (fullTrace ps pd (a.delta.getD DELTA_DEF) (a.omega.getD OMEGA_DEF) i f mo,
        Outcome.success) := by
  obtain ⟨h1, h2, h3, h4, h5, h6, h7⟩ := hw
  simp [main, hps, hpd, envLoads, hi, hf, hm, runHw, h1, h2, h3, h4, h5, h6, h7]

/-- A run whose environment load fails panics before any collaborator call. -/
theorem main_env_none (a : Args) (e : Env) (w : World)
    (hE : envLoads e = none) : main a e w = ([], Outcome.panicked) := by
  cases hps : a.pin_step with
  | none => simp [main, hps]
  | some ps =>
    cases hpd : a.pin_dir with
    | none => simp [main, hps, hpd]
    | some pd => simp [main, hps, hpd, hE]

/-- Every fallible call of the all-success collaborator behaviour succeeds. -/
theorem hwOk_worldOk : hwOk worldOk :=
  ⟨rfl, fun _ => rfl, rfl, rfl, rfl, fun _ => rfl, fun _ => rfl⟩

/-- In any hardware-pipeline trace, all microstep calls precede all
velocity-ceiling calls. -/
theorem runHw_ordered_micro_velmax (ps pd : ℕ) (d om i f : ℚ) (mo : Option ℕ)
    (w : World) :
    ordered isMicro isVelMax (runHw ps pd d om i f mo w).1 = true := by
  rcases mo with _ | m <;> (unfold runHw; repeat' split) <;>
    simp [fullTrace, preTrace, microEvents, ordered, isMicro, isVelMax]

/-- In any hardware-pipeline trace, all microstep calls precede all load
applications. -/
theorem runHw_ordered_micro_load (ps pd : ℕ) (d om i f : ℚ) (mo : Option ℕ)
    (w : World) :
    ordered isMicro isLoad (runHw ps pd d om i f mo w).1 = true := by
  rcases mo with _ | m <;> (unfold runHw; repeat' split) <;>
    simp [fullTrace, preTrace, microEvents, ordered, isMicro, isLoad,
      isInertia, isForce]

/-- When a microstep override is present, any hardware-pipeline trace that
contains a velocity-ceiling call also contains the microstep call. -/
theorem runHw_velmax_to_micro (ps pd : ℕ) (d om i f : ℚ) (m : ℕ) (w : World)
    (v : ℚ) :
    Event.setVelocityMax v ∈ (runHw ps pd d om i f (some m) w).1 →
    Event.setMicrosteps m ∈ (runHw ps pd d om i f (some m) w).1 := by
  unfold runHw; repeat' split
  all_goals simp [fullTrace, preTrace, microEvents]

/-- Any hardware-pipeline trace containing an inertia application also
contains the generalized-force application. -/
theorem runHw_inertia_to_force (ps pd : ℕ) (d om i f : ℚ) (mo : Option ℕ)
    (w : World) (j : ℚ) :
    Event.applyInertia j ∈ (runHw ps pd d om i f mo w).1 →
    Event.applyGenForce f ∈ (runHw ps pd d om i f mo w).1 := by
  rcases mo with _ | m <;> (unfold runHw; repeat' split)
  all_goals simp [fullTrace, preTrace, microEvents]

/-- If a hardware-pipeline trace contains a force application that the
collaborator rejects, the run sets no velocity ceiling, drives nothing, and
ends with a propagated error. -/
theorem runHw_force_fail (ps pd : ℕ) (d om i f : ℚ) (mo : Option ℕ)
    (w : World) (g : ℚ) :
    Event.applyGenForce g ∈ (runHw ps pd d om i f mo w).1 →
    w.applyGenForce g = false →
    (∀ v, Event.setVelocityMax v ∉ (runHw ps pd d om i f mo w).1) ∧
    (∀ x fac, Event.driveRel x fac ∉ (runHw ps pd d om i f mo w).1) ∧
    (runHw ps pd d om i f mo w).2 = Outcome.errored := by
  intro hmem hfail
  rcases mo with _ | m <;> (unfold runHw at hmem ⊢; repeat' split at hmem) <;>
    simp_all [fullTrace, preTrace, microEvents]

/-- Two hardware-pipeline runs differing only in the drive distance produce
traces equal up to the displacement argument of the relative drive. -/
theorem runHw_mask (ps pd : ℕ) (d1 d2 om i f : ℚ) (mo : Option ℕ) (w : World) :
    (runHw ps pd d1 om i f mo w).1.map maskDelta =
    (runHw ps pd d2 om i f mo w).1.map maskDelta := by
  rcases mo with _ | m <;> (unfold runHw; repeat' split) <;>
    simp [fullTrace, preTrace, microEvents, maskDelta]

/-- C1: with both pin arguments, no optional CLI arguments and no environment
variables set, the pipeline configures the actuator at 12 V supply with no
overload-current ceiling, applies zero inertia and zero generalized force,
performs no microstep-resolution call, sets the velocity ceiling to 20 rad/s,
issues exactly one relative drive of 2 pi radians at the maximum speed
factor, and exits with code 0 when the drive completes. -/
theorem c1_default_run (a : Args) (e : Env) (w : World) (ps pd : ℕ)
    (hps : a.pin_step = some ps) (hpd : a.pin_dir = some pd)
    (hdelta : a.delta = none) (homega : a.omega = none)
    (hin : e.inertia = none) (hfo : e.force = none) (hmi : e.micro = none)
    (hw : hwOk w) :
    main a e w =
      ([Event.gpioNew, Event.gpioGet ps, Event.gpioGet pd, Event.pwmNew,
        Event.stepperNew, Event.setConfig 12 none, Event.setup,
        Event.applyInertia 0, Event.applyGenForce 0,
        Event.setVelocityMax 20, Event.driveRel DELTA_DEF factorMAX],
        Outcome.success)
    ∧ DELTA_DEF = 2 * pi32 ∧ exitCode (main a e w).2 = 0 := by
  have h := main_ok a e w ps pd 0 0 none hps hpd
    (by simp [loadOrDefault, hin]) (by simp [loadOrDefault, hfo])
    (by simp [loadMicro, hmi]) hw
  simp [hdelta, homega] at h
  refine ⟨?_, rfl, ?_⟩
  · rw [h]; simp [fullTrace, preTrace, microEvents, OMEGA_DEF]
  · rw [h]; rfl

/-- C1 witness: the default-pipeline theorem instantiated at pins 17 and 27,
everything else absent, every collaborator call succeeding. -/
theorem c1_witness :
    main argsPins envUnset worldOk =
      ([Event.gpioNew, Event.gpioGet 17, Event.gpioGet 27, Event.pwmNew,
        Event.stepperNew, Event.setConfig 12 none, Event.setup,
        Event.applyInertia 0, Event.applyGenForce 0,
        Event.setVelocityMax 20, Event.driveRel DELTA_DEF factorMAX],
        Outcome.success)
    ∧ DELTA_DEF = 2 * pi32 ∧ exitCode (main argsPins envUnset worldOk).2 = 0 :=
  c1_default_run argsPins envUnset worldOk 17 27 rfl rfl rfl rfl rfl rfl rfl
    hwOk_worldOk

/-- C2: whenever one of INERTIA, FORCE or MICRO is set to a value that fails
to parse, the process panics with an empty collaborator trace: the GPIO
subsystem is never opened, no pin is acquired, and no later pipeline stage
executes. -/
theorem c2_env_parse_fatal (a : Args) (e : Env) (w : World)
    (h : (∃ s, e.inertia = some s ∧ parseDecimal s = none) ∨
         (∃ s, e.force = some s ∧ parseDecimal s = none) ∨
         (∃ s, e.micro = some s ∧ parseMicro s = none)) :
    main a e w = ([], Outcome.panicked) := by
  refine main_env_none a e w ?_
  rcases h with ⟨s, hs, hp⟩ | ⟨s, hs, hp⟩ | ⟨s, hs, hp⟩
  · exact envLoads_inertia_bad e s hs hp
  · exact envLoads_force_bad e s hs hp
  · exact envLoads_micro_bad e s hs hp

/-- C2 witness: MICRO set to a non-numeric string aborts with an empty
trace. -/
theorem c2_witness : main argsPins envBadMicro worldOk = ([], Outcome.panicked) :=
  c2_env_parse_fatal argsPins envBadMicro worldOk
    (Or.inr (Or.inr ⟨"x", rfl, by decide⟩))

/-- C3 counterexample: with INERTIA set to the empty string the run panics
with an empty trace, so no zero inertia is applied and the pipeline does not
proceed, contrary to the claim that the empty string behaves like unset. -/
theorem c3_counterexample :
    main argsPins envEmptyInertia worldOk = ([], Outcome.panicked) := by
  decide

/-- C3 amended: if INERTIA is unset the inertia applied to the actuator is
zero and the pipeline proceeds normally; if INERTIA is set to the empty
string the run aborts with a fatal parse error before any collaborator
call. -/
theorem c3_inertia_default (a : Args) (w : World) :
    (∀ e : Env, e.inertia = none →
      ∀ ps pd f mo, a.pin_step = some ps → a.pin_dir = some pd →
        loadOrDefault e.force 0 = some f → loadMicro e.micro = some mo →
        hwOk w →
        Event.applyInertia 0 ∈ (main a e w).1 ∧ (main a e w).2 = Outcome.success)
    ∧ (∀ e : Env, e.inertia = some "" → main a e w = ([], Outcome.panicked)) := by
  constructor
  · intro e hin ps pd f mo hps hpd hf hm hw
    have h := main_ok a e w ps pd 0 f mo hps hpd
      (by simp [loadOrDefault, hin]) hf hm hw
    rw [h]
    rcases mo with _ | m <;> simp [fullTrace, preTrace, microEvents]
  · intro e hin
    exact main_env_none a e w (envLoads_inertia_bad e "" hin (by decide))

/-- C3 witness: the amended theorem at pins 17 and 27 with INERTIA unset in
one environment and set to the empty string in another. -/
theorem c3_witness :
    (Event.applyInertia 0 ∈ (main argsPins envUnset worldOk).1 ∧
      (main argsPins envUnset worldOk).2 = Outcome.success)
    ∧ main argsPins envEmptyInertia worldOk = ([], Outcome.panicked) :=
  ⟨(c3_inertia_default argsPins worldOk).1 envUnset rfl 17 27 0 none rfl rfl
      rfl rfl hwOk_worldOk,
    (c3_inertia_default argsPins worldOk).2 envEmptyInertia rfl⟩

/-- C4 counterexample: in the run with pins 17 and 27 and MICRO set to 4, the
trace contains the microstep call, the inertia application and the force
application, yet it is false that every load application precedes every
microstep call: the source applies microstepping on lines 62 to 64, before
the loads on lines 67 and 68. -/
theorem c4_counterexample :
    Event.setMicrosteps 4 ∈ (main argsPins envMicro4 worldOk).1 ∧
    Event.applyInertia 0 ∈ (main argsPins envMicro4 worldOk).1 ∧
    Event.applyGenForce 0 ∈ (main argsPins envMicro4 worldOk).1 ∧
    ordered isLoad isMicro (main argsPins envMicro4 worldOk).1 = false := by
  refine ⟨by decide, by decide, by decide, by decide⟩

/-- C4 amended: in every run, the microstep-resolution call, when present,
precedes the inertia application and the force application: every microstep
call occurs strictly before every load-application call in the trace. -/
theorem c4_micro_before_loads (a : Args) (e : Env) (w : World) :
    ordered isMicro isLoad (main a e w).1 = true := by
  rcases main_cases a e w with h | ⟨ps, pd, i, f, mo, _, _, _, h⟩
  · simp [h, ordered]
  · rw [h]
    exact runHw_ordered_micro_load ps pd (a.delta.getD DELTA_DEF)
      (a.omega.getD OMEGA_DEF) i f mo w

/-- C5: when MICRO is present and well-formed, any run that sets the velocity
ceiling has also applied the parsed microstep subdivision, and every
microstep call occurs strictly before every velocity-ceiling call. -/
theorem c5_micro_before_velmax (a : Args) (e : Env) (w : World) (s : String)
    (m : ℕ) (hs : e.micro = some s) (hm : parseMicro s = some m) :
    (∀ v, Event.setVelocityMax v ∈ (main a e w).1 →
      Event.setMicrosteps m ∈ (main a e w).1)
    ∧ ordered isMicro isVelMax (main a e w).1 = true := by
  rcases main_cases a e w with h | ⟨ps, pd, i, f, mo, hps, hpd, hE, h⟩
  · rw [h]
    exact ⟨fun v hv => by simp at hv, by simp [ordered]⟩
  · have hmo : mo = some m := envLoads_micro_eq e i f mo s m hE hs hm
    subst hmo
    rw [h]
    exact ⟨fun v => runHw_velmax_to_micro ps pd (a.delta.getD DELTA_DEF)
        (a.omega.getD OMEGA_DEF) i f m w v,
      runHw_ordered_micro_velmax ps pd (a.delta.getD DELTA_DEF)
        (a.omega.getD OMEGA_DEF) i f (some m) w⟩

/-- C5 witness: the theorem at MICRO set to 4, the setVelocityMax membership
instantiated at the default velocity ceiling. -/
theorem c5_witness :
    Event.setMicrosteps 4 ∈ (main argsPins envMicro4 worldOk).1
    ∧ ordered isMicro isVelMax (main argsPins envMicro4 worldOk).1 = true :=
  ⟨(c5_micro_before_velmax argsPins envMicro4 worldOk "4" 4 rfl (by decide)).1
      OMEGA_DEF (by decide),
    (c5_micro_before_velmax argsPins envMicro4 worldOk "4" 4 rfl (by decide)).2⟩

/-- C6: inertia application cannot abort the pipeline: any trace containing
an inertia application also contains the subsequent generalized-force
application; and whenever the force application is rejected by the
collaborator, the run ends with a propagated error before any motion: no
velocity ceiling is set and no relative drive is issued. -/
theorem c6_force_failure_aborts (a : Args) (e : Env) (w : World) :
    ((∃ j, Event.applyInertia j ∈ (main a e w).1) →
      ∃ g, Event.applyGenForce g ∈ (main a e w).1)
    ∧ (∀ g, Event.applyGenForce g ∈ (main a e w).1 →
        w.applyGenForce g = false →
        (∀ v, Event.setVelocityMax v ∉ (main a e w).1) ∧
        (∀ x fac, Event.driveRel x fac ∉ (main a e w).1) ∧
        (main a e w).2 = Outcome.errored) := by
  rcases main_cases a e w with h | ⟨ps, pd, i, f, mo, hps, hpd, hE, h⟩
  · rw [h]
    constructor
    · rintro ⟨j, hj⟩; simp at hj
    · intro g hg; simp at hg
  · rw [h]
    constructor
    · rintro ⟨j, hj⟩
      exact ⟨f, runHw_inertia_to_force ps pd (a.delta.getD DELTA_DEF)
        (a.omega.getD OMEGA_DEF) i f mo w j hj⟩
    · intro g hg hfail
      exact runHw_force_fail ps pd (a.delta.getD DELTA_DEF)
        (a.omega.getD OMEGA_DEF) i f mo w g hg hfail

/-- C6 witness: with a collaborator that rejects every generalized force, the
run at pins 17 and 27 reaches the force application, sets no velocity
ceiling, issues no drive and ends with a propagated error. -/
theorem c6_witness :
    (∃ g, Event.applyGenForce g ∈ (main argsPins envUnset worldForceFail).1)
    ∧ Event.setVelocityMax 20 ∉ (main argsPins envUnset worldForceFail).1
    ∧ Event.driveRel DELTA_DEF factorMAX ∉ (main argsPins envUnset worldForceFail).1
    ∧ (main argsPins envUnset worldForceFail).2 = Outcome.errored :=
  ⟨(c6_force_failure_aborts argsPins envUnset worldForceFail).1 ⟨0, by decide⟩,
    ((c6_force_failure_aborts argsPins envUnset worldForceFail).2 0 (by decide)
        rfl).1 20,
    ((c6_force_failure_aborts argsPins envUnset worldForceFail).2 0 (by decide)
        rfl).2.1 DELTA_DEF factorMAX,
    ((c6_force_failure_aborts argsPins envUnset worldForceFail).2 0 (by decide)
        rfl).2.2⟩

/-- C7: when either pin argument is absent from the command line, the process
panics with an empty collaborator trace: the GPIO subsystem is never opened,
no pin is acquired, and no actuator is constructed. -/
theorem c7_missing_pin_aborts (a : Args) (e : Env) (w : World)
    (h : a.pin_step = none ∨ a.pin_dir = none) :
    main a e w = ([], Outcome.panicked) := by
  rcases h with h | h
  · simp [main, h]
  · cases hps : a.pin_step <;> simp [main, hps, h]

/-- C7 witness: a command line missing the direction pin aborts with an
empty trace. -/
theorem c7_witness : main argsNoDir envUnset worldOk = ([], Outcome.panicked) :=
  c7_missing_pin_aborts argsNoDir envUnset worldOk (Or.inr rfl)

/-- C8: provided delta and omega values, including negative delta and zero
omega, are passed through unmodified: the velocity ceiling receives exactly
the parsed omega, the single relative drive receives exactly the parsed
delta at the maximum speed factor, and no other value is ever passed to
either call. -/
theorem c8_passthrough (a : Args) (e : Env) (w : World) (ps pd : ℕ)
    (d om i f : ℚ) (mo : Option ℕ)
    (hps : a.pin_step = some ps) (hpd : a.pin_dir = some pd)
    (hd : a.delta = some d) (ho : a.omega = some om)
    (hi : loadOrDefault e.inertia 0 = some i)
    (hf : loadOrDefault e.force 0 = some f)
    (hm : loadMicro e.micro = some mo) (hw : hwOk w) :
    Event.setVelocityMax om ∈ (main a e w).1 ∧
    Event.driveRel d factorMAX ∈ (main a e w).1 ∧
    (∀ v, Event.setVelocityMax v ∈ (main a e w).1 → v = om) ∧
    (∀ x fac, Event.driveRel x fac ∈ (main a e w).1 →
      x = d ∧ fac = factorMAX) := by
  have h := main_ok a e w ps pd i f mo hps hpd hi hf hm hw
  simp [hd, ho] at h
  rw [h]
  rcases mo with _ | m <;> simp [fullTrace, preTrace, microEvents]

/-- C8 witness: the pass-through theorem at delta -5 rad and omega 0 rad/s:
both reach the actuator unmodified. -/
theorem c8_witness :
    Event.setVelocityMax 0 ∈ (main argsNeg envUnset worldOk).1 ∧
    Event.driveRel (-5) factorMAX ∈ (main argsNeg envUnset worldOk).1 :=
  ⟨(c8_passthrough argsNeg envUnset worldOk 17 27 (-5) 0 0 0 none rfl rfl rfl
      rfl rfl rfl rfl hwOk_worldOk).1,
    (c8_passthrough argsNeg envUnset worldOk 17 27 (-5) 0 0 0 none rfl rfl rfl
      rfl rfl rfl rfl hwOk_worldOk).2.1⟩

/-- C9: when FORCE is set to the empty string the process panics before any
collaborator call rather than defaulting the force to zero; the zero-force
default is applied exactly when FORCE is entirely unset. -/
theorem c9_empty_force_fatal (a : Args) (e : Env) (w : World) :
    (e.force = some "" → main a e w = ([], Outcome.panicked)) ∧
    (e.force = none →
      ∀ ps pd i mo, a.pin_step = some ps → a.pin_dir = some pd →
        loadOrDefault e.inertia 0 = some i → loadMicro e.micro = some mo →
        hwOk w →
        Event.applyGenForce 0 ∈ (main a e w).1 ∧
          (main a e w).2 = Outcome.success) := by
  constructor
  · intro hf
    exact main_env_none a e w (envLoads_force_bad e "" hf (by decide))
  · intro hf ps pd i mo hps hpd hi hm hw
    have h := main_ok a e w ps pd i 0 mo hps hpd hi
      (by simp [loadOrDefault, hf]) hm hw
    rw [h]
    rcases mo with _ | m <;> simp [fullTrace, preTrace, microEvents]

/-- C9 witness: FORCE set to the empty string aborts with an empty trace,
while FORCE unset applies the zero default and succeeds. -/
theorem c9_witness :
    main argsPins envEmptyForce worldOk = ([], Outcome.panicked) ∧
    (Event.applyGenForce 0 ∈ (main argsPins envUnset worldOk).1 ∧
      (main argsPins envUnset worldOk).2 = Outcome.success) :=
  ⟨(c9_empty_force_fatal argsPins envEmptyForce worldOk).1 rfl,
    (c9_empty_force_fatal argsPins envUnset worldOk).2 rfl 17 27 0 none rfl rfl
      rfl rfl hwOk_worldOk⟩

/-- C10: two runs differing only in the delta command-line argument produce
collaborator traces equal up to the displacement argument of the relative
drive: every call before the drive is identical in order and arguments, and
delta influences only the displacement passed to drive_rel. -/
theorem c10_delta_noninterference (a : Args) (e : Env) (w : World) (d1 d2 : ℚ) :
    (main (setDelta a d1) e w).1.map maskDelta =
    (main (setDelta a d2) e w).1.map maskDelta := by
  cases hps : a.pin_step with
  | none => simp [main, setDelta, hps]
  | some ps =>
    cases hpd : a.pin_dir with
    | none => simp [main, setDelta, hps, hpd]
    | some pd =>
      cases hE : envLoads e with
      | none => simp [main, setDelta, hps, hpd, hE]
      | some x =>
        obtain ⟨i, f, mo⟩ := x
        simp [main, setDelta, hps, hpd, hE]
        exact runHw_mask ps pd d1 d2 (a.omega.getD OMEGA_DEF) i f mo w

end Syrasp
